import Mathlib

/-!
# Verification of the QuantumLink SaaS request-handling core

Shallow embedding of `src/app.py`: the JSON value model, the mocked
collaborators (`MockSistemaQuantumBiMoType`, `MockDatabase`,
`MockAuthService`), the auth gate (`require_auth`), the error mapper
(`handle_api_errors`) and the four protected endpoint handlers
(`api_encode_message`, `api_decode_message`, `get_user_packages`,
`get_package_details`), followed by theorems settling the spec claims.

Python conventions modelled explicitly:
* a parsed JSON body is a `JVal`; Python truthiness of such a value is
  `jfalsy`;
* `dict.get` on a non-dict raises `AttributeError`, modelled by
  `PyErr.attributeError`; `raise ValueError` is `PyErr.valueError`;
* Python dicts are insertion-ordered association lists; assignment to an
  existing key replaces the value in place (`dictSet`);
* Python's built-in `hash` on strings is an arbitrary function fixed for
  the lifetime of the interpreter process: every definition is
  parameterised by `hsh : String -> Int`, and closed examples use the
  concrete stand-in `hashStub`;
* `datetime.utcnow().isoformat()` values are opaque strings supplied as
  parameters (`now1`, `now2`, ...).
-/

/-- Parsed JSON value (request bodies).  Numbers are modelled as `Int`:
no handler in `src/app.py` performs arithmetic on a body value, numbers
only flow through truthiness checks and opaque storage. -/
inductive JVal where
  | jnull
  | jbool (b : Bool)
  | jnum (n : Int)
  | jstr (s : String)
  | jarr (xs : List JVal)
  | jobj (fields : List (String × JVal))

/-- Python truthiness (`if not x`) of a parsed JSON value:
`None`, `False`, `0`, `""`, `[]` and `{}` are falsy. -/
def jfalsy : JVal → Bool
  | .jnull => true
  | .jbool b => !b
  | .jnum n => n == 0
  | .jstr s => s == ""
  | .jarr xs => xs.isEmpty
  | .jobj fields => fields.isEmpty

/-- Python `==` between a `str` on the left and an arbitrary value on the
right: string equality when the right value is a `str`, `False` otherwise
(used by `MockDatabase.get_package_by_id`). -/
def pyEqStr (s : String) (v : JVal) : Bool :=
  match v with
  | .jstr t => s == t
  | _ => false

/-- Python `str.strip()` with no argument: remove leading and trailing
whitespace.  (The examples in this development only ever strip the ASCII
whitespace characters, where Python and `Char.isWhitespace` agree.) -/
def pyStrip (s : String) : String :=
  String.mk (((s.data.dropWhile Char.isWhitespace).reverse.dropWhile
    Char.isWhitespace).reverse)

/-- Python `str.startswith(pre)`. -/
def pyStartswith (s pre : String) : Bool :=
  pre.data.isPrefixOf s.data

/-- Worker for `pyReplace`, structurally recursive on a character budget
that starts at the length of the subject string. -/
def pyReplaceAux (pat repl : List Char) : Nat → List Char → List Char
  | _, [] => []
  | 0, l => l
  | fuel + 1, c :: rest =>
      if pat.isPrefixOf (c :: rest) then
        repl ++ pyReplaceAux pat repl fuel ((c :: rest).drop pat.length)
      else c :: pyReplaceAux pat repl fuel rest

/-- Python `str.replace(pat, repl)`: replace every occurrence, scanning
left to right.  (Its one caller in `src/app.py` uses the non-empty
pattern `'valid_'`, for which the budget never runs out.) -/
def pyReplace (s pat repl : String) : String :=
  String.mk (pyReplaceAux pat.data repl.data s.data.length s.data)

/-- User identity resolved by `MockAuthService.get_user_from_token`. -/
structure User where
  id : String
  username : String
  tier : String
deriving DecidableEq

/-- The dict returned by
`MockSistemaQuantumBiMoType.encode_quantum_message` (a package draft,
before the handler merges in ownership metadata). -/
structure PaqueteDraft where
  id_mensaje : String
  timestamp : String
  quantum_data : String
  qubits_count : Nat
deriving DecidableEq

/-- A stored package: the draft plus the metadata `api_encode_message`
merges in via `paquete.update({...})`.  `encoding_type` and `priority`
come straight from the request body, so they are arbitrary JSON values. -/
structure Paquete where
  id_mensaje : String
  timestamp : String
  quantum_data : String
  qubits_count : Nat
  user_id : String
  encoding_type : JVal
  priority : JVal
  created_at : String

/-- The `metricas_cuanticas` dict produced by
`decode_quantum_transmission` (constants in the mock; carried opaquely). -/
structure Metricas where
  fidelidad : Rat
  error_rate : Rat
  coherencia : Rat
deriving DecidableEq

/-- Result of `MockSistemaQuantumBiMoType.decode_quantum_transmission`. -/
structure DecodeResult where
  mensaje_decodificado : String
  estado : String
  metricas_cuanticas : Metricas

/-- `MockSistemaQuantumBiMoType.encode_quantum_message`:
`id_mensaje = 'BiMO-' + str(hash(message))[:8]`, a timestamp, the payload
`'encoded_' + message`, and `qubits_count = len(message)`. -/
def encode_quantum_message (hsh : String → Int) (now : String)
    (message : String) : PaqueteDraft :=
  { id_mensaje := "BiMO-" ++ (toString (hsh message)).take 8
    timestamp := now
    quantum_data := "encoded_" ++ message
    qubits_count := message.length }

/-- `MockSistemaQuantumBiMoType.decode_quantum_transmission`: the mock
ignores its arguments and returns fixed values. -/
def decode_quantum_transmission (_paquete : Paquete)
    (_measurements : List JVal) : DecodeResult :=
  { mensaje_decodificado := "QUANTUM MESSAGE DECODED"
    estado := "SUCCESS"
    metricas_cuanticas :=
      { fidelidad := 0.95, error_rate := 0.05, coherencia := 0.92 } }

/-- `MockDatabase` state: `self.storage` and `self.metrics`, both Python
dicts modelled as insertion-ordered association lists.  Metrics keys are
the `package_id` strings passed to `update_metrics`. -/
structure DB where
  storage : List (String × Paquete)
  metrics : List (String × Metricas)

/-- The database at process start (`MockDatabase.__init__`). -/
def emptyDB : DB := { storage := [], metrics := [] }

/-- Python dict assignment `d[k] = v`: replaces the value of an existing
key in place (keeping its insertion position), else appends. -/
def dictSet {α : Type} (k : String) (v : α) :
    List (String × α) → List (String × α)
  | [] => [(k, v)]
  | (k', v') :: rest =>
      if k' = k then (k, v) :: rest else (k', v') :: dictSet k v rest

/-- `MockDatabase.save_transmission_history`: stores the package under
the key `f"{user_id}_{paquete['id_mensaje']}"`. -/
def save_transmission_history (db : DB) (user_id : String)
    (paquete : Paquete) : DB :=
  { db with storage :=
      dictSet (user_id ++ "_" ++ paquete.id_mensaje) paquete db.storage }

/-- `MockDatabase.get_package_by_id`: scans `self.storage` in insertion
order and returns the first value whose `id_mensaje` equals `package_id`.
In the decode handler the argument is a raw JSON value; Python's `==`
between the stored `str` id and that value is `pyEqStr`. -/
def get_package_by_id (db : DB) (package_id : JVal) : Option Paquete :=
  (db.storage.find? (fun kv => pyEqStr kv.2.id_mensaje package_id)).map
    (fun kv => kv.2)

/-- `MockDatabase.update_metrics`: `self.metrics[package_id] = metrics`. -/
def update_metrics (db : DB) (package_id : String) (metrics : Metricas) :
    DB :=
  { db with metrics := dictSet package_id metrics db.metrics }

/-- `MockAuthService.get_user_from_token`: `if token and
token.startswith('valid_')`, the user id is `token.replace('valid_', '')`
and the username ends with `token[-4:]`. -/
def get_user_from_token (token : String) : Option User :=
  if token != "" && pyStartswith token "valid_" then
    some { id := pyReplace token "valid_" ""
           username := "user_" ++ token.drop (token.length - 4)
           tier := "premium" }
  else none

/-- An HTTP request as the handlers observe it: the raw `Authorization`
header (if sent) and the parsed JSON body (`none` when the request has no
JSON body, in which case `request.is_json` is false and
`request.get_json()` returns `None`). -/
structure Request where
  authHeader : Option String
  body : Option JVal

/-- `if auth_token.startswith('Bearer '): auth_token = auth_token[7:]`. -/
def stripBearer (s : String) : String :=
  if pyStartswith s "Bearer " then s.drop 7 else s

/-- The token-extraction half of `require_auth`:
`auth_token = request.headers.get('Authorization')`, then
`if not auth_token and request.is_json: auth_token =
request.json.get('auth_token')`.  `.get` on a JSON body that is not an
object raises `AttributeError`, modelled as `.error ()`. -/
def extract_token (req : Request) : Except Unit (Option JVal) :=
  let headerTok : Option JVal := req.authHeader.map .jstr
  if (match headerTok with | none => true | some v => jfalsy v) then
    match req.body with
    | some (.jobj fields) => .ok (fields.lookup "auth_token")
    | some _ => .error ()
    | none => .ok headerTok
  else .ok headerTok

/-- Outcome of the `require_auth` decorator:
success with the resolved user, a 401 JSON response with a machine code,
or an uncaught exception (which the framework turns into HTTP 500
because `require_auth` wraps `handle_api_errors`, not the reverse). -/
inductive AuthOutcome where
  | ok (user : User)
  | fail401 (code : String)
  | crash

/-- `require_auth`: missing/falsy token yields 401 `UNAUTHORIZED`;
a string token is stripped of an optional `Bearer ` marker and resolved,
failure yielding 401 `INVALID_TOKEN`; a truthy non-string token raises at
`auth_token.startswith` (`AttributeError`). -/
def require_auth (req : Request) : AuthOutcome :=
  match extract_token req with
  | .error _ => .crash
  | .ok none => .fail401 "UNAUTHORIZED"
  | .ok (some tok) =>
    if jfalsy tok then .fail401 "UNAUTHORIZED"
    else
      match tok with
      | .jstr s =>
        match get_user_from_token (stripBearer s) with
        | some u => .ok u
        | none => .fail401 "INVALID_TOKEN"
      | _ => .crash

/-- Exceptions a handler body can raise:
`raise ValueError(msg)` and Python `AttributeError` (from `.get` on a
value that is not a dict). -/
inductive PyErr where
  | valueError (msg : String)
  | attributeError

/-- One entry of the list produced by `get_user_packages`. -/
structure PackageSummary where
  package_id : String
  timestamp : String
  encoding_type : JVal
  qubits_count : Nat
  status : String
  metrics : Option Metricas

/-- The JSON responses the five route handlers can produce, tagged with
their HTTP status where it is not fixed by the constructor:
`err` carries the status and machine `code`; `encoded` is the 201 encode
success; `decoded` the 200 decode success; `packages`/`detail` the 200
read responses. -/
inductive Response where
  | err (status : Nat) (code : String)
  | encoded (package_id : String) (timestamp : String)
      (qubits_count : Nat) (encoding_type : JVal)
  | decoded (package_id : String) (decoded_message : String)
      (transmission_status : String) (metrics : Metricas)
      (decoded_at : String)
  | packages (items : List PackageSummary)
  | detail (package : Paquete) (metrics : Option Metricas)

/-- `api_encode_message` body (after auth): validates the JSON body,
encodes the trimmed message, merges ownership metadata and saves.
Control flow mirrors the Python source line by line; each `raise` is an
`.error`.  Every exception is raised before the single `Store` write, so
the wrapper can return the pre-handler database unchanged on error. -/
def api_encode_message (hsh : String → Int) (now1 now2 : String)
    (user : User) (db : DB) (body : Option JVal) :
    Except PyErr (Response × DB) :=
  match body with
  | none => .error (.valueError "Se requiere un cuerpo JSON valido")
  | some data =>
    if jfalsy data then
      .error (.valueError "Se requiere un cuerpo JSON valido")
    else
      match data with
      | .jobj fields =>
        match fields.lookup "message" with
        | some (.jstr s) =>
          if pyStrip s == "" then
            .error (.valueError
              "El campo 'message' debe ser una cadena no vacia")
          else if s.length > 1000 then
            .error (.valueError
              "El mensaje no puede exceder 1000 caracteres")
          else
            -- options = data.get('options', {}); .get on a non-dict raises
            match (fields.lookup "options").getD (.jobj []) with
            | .jobj opts =>
              let encoding_type := (opts.lookup "encoding_type").getD
                (.jstr "BiMO")
              let priority := (opts.lookup "priority").getD
                (.jstr "medium")
              let draft := encode_quantum_message hsh now1 (pyStrip s)
              let paquete : Paquete :=
                { id_mensaje := draft.id_mensaje
                  timestamp := draft.timestamp
                  quantum_data := draft.quantum_data
                  qubits_count := draft.qubits_count
                  user_id := user.id
                  encoding_type := encoding_type
                  priority := priority
                  created_at := now2 }
              let db' := save_transmission_history db user.id paquete
              .ok (.encoded paquete.id_mensaje paquete.timestamp
                paquete.qubits_count encoding_type, db')
            | _ => .error .attributeError
        | _ => .error (.valueError
            "El campo 'message' debe ser una cadena no vacia")
      | _ => .error .attributeError

/-- `api_decode_message` body (after auth): validates `package_id` and
`measurements`, looks the package up, enforces ownership, decodes and
stores the metrics.  When the lookup succeeds, `package_id` is the `str`
equal to the found package's `id_mensaje` (`pyEqStr`), so keying the
metrics dict by `package_id` is keying it by `p.id_mensaje`. -/
def api_decode_message (user : User) (db : DB) (body : Option JVal)
    (now : String) : Except PyErr (Response × DB) :=
  match body with
  | none => .error (.valueError "Se requiere un cuerpo JSON valido")
  | some data =>
    if jfalsy data then
      .error (.valueError "Se requiere un cuerpo JSON valido")
    else
      match data with
      | .jobj fields =>
        match fields.lookup "package_id" with
        | none => .error (.valueError
            "El campo 'package_id' es requerido")
        | some pidv =>
          if jfalsy pidv then
            .error (.valueError "El campo 'package_id' es requerido")
          else
            match fields.lookup "measurements" with
            | some (.jarr ms) =>
              if ms.isEmpty then
                .error (.valueError
                  "El campo 'measurements' debe ser una lista no vacia")
              else
                match get_package_by_id db pidv with
                | none => .ok (.err 404 "PACKAGE_NOT_FOUND", db)
                | some p =>
                  if p.user_id != user.id then
                    .ok (.err 403 "FORBIDDEN", db)
                  else
                    let resultado := decode_quantum_transmission p ms
                    let db' := update_metrics db p.id_mensaje
                      resultado.metricas_cuanticas
                    .ok (.decoded p.id_mensaje
                      resultado.mensaje_decodificado resultado.estado
                      resultado.metricas_cuanticas now, db')
            | _ => .error (.valueError
                "El campo 'measurements' debe ser una lista no vacia")
      | _ => .error .attributeError

/-- `get_user_packages` body (after auth): one pass over `db.storage` in
insertion order, keeping the packages whose `user_id` is the caller's,
each summarised; `status` is `'decoded'` and `metrics` attached exactly
when `paquete['id_mensaje'] in db.metrics`.  (`encoding_type` and
`qubits_count` are always present on stored packages, so the `.get`
defaults in the source are never taken.) -/
def get_user_packages (db : DB) (user_id : String) :
    List PackageSummary :=
  db.storage.filterMap fun kv =>
    if kv.2.user_id == user_id then
      some { package_id := kv.2.id_mensaje
             timestamp := kv.2.timestamp
             encoding_type := kv.2.encoding_type
             qubits_count := kv.2.qubits_count
             status := if (db.metrics.lookup kv.2.id_mensaje).isSome
               then "decoded" else "encoded"
             metrics := db.metrics.lookup kv.2.id_mensaje }
    else none

/-- `get_package_details` body (after auth): path parameter lookup
(`package_id` is a `str` here), the same not-found / ownership checks as
decode, then the full package plus `db.metrics.get(package_id)`. -/
def get_package_details (user : User) (db : DB) (package_id : String) :
    Response :=
  match get_package_by_id db (.jstr package_id) with
  | none => .err 404 "PACKAGE_NOT_FOUND"
  | some p =>
    if p.user_id != user.id then .err 403 "FORBIDDEN"
    else .detail p (db.metrics.lookup package_id)

/-- `handle_api_errors`: `ValueError` becomes 400 `VALIDATION_ERROR`, any
other exception becomes 500 `INTERNAL_ERROR`.  In `src/app.py` every
exception in a handler body is raised before the body's Store write, so
the database passed in is the state the failed request leaves behind. -/
def handle_api_errors (r : Except PyErr (Response × DB)) (db : DB) :
    Response × DB :=
  match r with
  | .ok out => out
  | .error (.valueError _) => (.err 400 "VALIDATION_ERROR", db)
  | .error .attributeError => (.err 500 "INTERNAL_ERROR", db)

/-- The four protected routes.  Encode and decode carry the opaque
timestamps their bodies draw from `datetime.utcnow()`. -/
inductive Endpoint where
  | encodeEp (now1 now2 : String)
  | decodeEp (now : String)
  | packagesEp
  | detailEp (package_id : String)

/-- One request-response cycle of a protected route: the `require_auth`
decorator runs first (a failure produces the 401 response, an uncaught
exception the framework's 500), then the `handle_api_errors`-wrapped
handler body. -/
def handle (hsh : String → Int) (ep : Endpoint) (req : Request)
    (db : DB) : Response × DB :=
  match require_auth req with
  | .fail401 c => (.err 401 c, db)
  | .crash => (.err 500 "INTERNAL_ERROR", db)
  | .ok user =>
    match ep with
    | .encodeEp now1 now2 =>
        handle_api_errors (api_encode_message hsh now1 now2 user db
          req.body) db
    | .decodeEp now =>
        handle_api_errors (api_decode_message user db req.body now) db
    | .packagesEp =>
        handle_api_errors (.ok (.packages (get_user_packages db user.id),
          db)) db
    | .detailEp pid =>
        handle_api_errors (.ok (get_package_details user db pid, db)) db

/-- Database state after serving a sequence of requests, starting from
`db`. -/
def run (hsh : String → Int) (db : DB) :
    List (Endpoint × Request) → DB
  | [] => db
  | (ep, req) :: rest => run hsh (handle hsh ep req db).2 rest

/-- Whether a response is the decode-success response for package `pid`. -/
def respDecodes (r : Response) (pid : String) : Bool :=
  match r with
  | .decoded pid' _ _ _ _ => pid' == pid
  | _ => false

/-- Whether some request in the sequence, served from `db`, is a
successful decode of package `pid`. -/
def decodeSuccessFor (hsh : String → Int) (db : DB) (pid : String) :
    List (Endpoint × Request) → Bool
  | [] => false
  | (ep, req) :: rest =>
      respDecodes (handle hsh ep req db).1 pid
        || decodeSuccessFor hsh (handle hsh ep req db).2 pid rest

/-- Concrete stand-in for the interpreter's string hash, used to evaluate
closed examples: any fixed function works, since `hash` is deterministic
within one interpreter process. -/
def hashStub (s : String) : Int := s.length

/-- An authenticated encode request: header token `valid_alice`, body
`{"message": "hola"}`. -/
def reqAliceHola : Request :=
  { authHeader := some "valid_alice"
    body := some (.jobj [("message", .jstr "hola")]) }

/-- Same encode body sent by a second user, token `valid_bob`. -/
def reqBobHola : Request :=
  { authHeader := some "valid_bob"
    body := some (.jobj [("message", .jstr "hola")]) }

/-- A decode request from `alice` for the package id both `hola` encodes
produce under `hashStub`. -/
def reqAliceDecode : Request :=
  { authHeader := some "valid_alice"
    body := some (.jobj [("package_id", .jstr "BiMO-4"),
      ("measurements", .jarr [.jnum 1])]) }

/-- The same decode request sent by `bob`. -/
def reqBobDecode : Request :=
  { authHeader := some "valid_bob"
    body := some (.jobj [("package_id", .jstr "BiMO-4"),
      ("measurements", .jarr [.jnum 1])]) }

/-- An authenticated request with no body (as GET requests send). -/
def reqBobBare : Request :=
  { authHeader := some "valid_bob", body := none }

/-- A 1001-character message whose trimmed form has exactly 1000
characters: one leading space followed by 1000 letters. -/
def longMsg : String := String.mk (' ' :: List.replicate 1000 'a')

/-- Encode request carrying `longMsg`, authenticated as `alice`. -/
def reqAliceLong : Request :=
  { authHeader := some "valid_alice"
    body := some (.jobj [("message", .jstr longMsg)]) }

/-- A request with no `Authorization` header whose JSON body is an array:
the token is missing, and the in-body token lookup `request.json.get`
raises `AttributeError` on the list. -/
def reqArrayBody : Request :=
  { authHeader := none, body := some (.jarr [.jnum 1]) }

/-- A request with no token anywhere. -/
def reqNoToken : Request := { authHeader := none, body := none }

/-- A request whose header token does not resolve to a user. -/
def reqBadToken : Request := { authHeader := some "nope", body := none }

/-- Encode request whose message is whitespace-only. -/
def reqAliceWhitespaceMsg : Request :=
  { authHeader := some "valid_alice"
    body := some (.jobj [("message", .jstr "   ")]) }

/-- Encode request with a valid message but a string-valued `options`. -/
def reqAliceBadOptions : Request :=
  { authHeader := some "valid_alice"
    body := some (.jobj [("message", .jstr "hola"),
      ("options", .jstr "fast")]) }

/-- The fixed metrics dict the mock decoder produces. -/
def mockMetricas : Metricas :=
  { fidelidad := 0.95, error_rate := 0.05, coherencia := 0.92 }

/-- The package `bob`'s `hola` encode stores under `hashStub`. -/
def pkgBobHola : Paquete :=
  { id_mensaje := "BiMO-4", timestamp := "t1"
    quantum_data := "encoded_hola", qubits_count := 4
    user_id := "bob", encoding_type := .jstr "BiMO"
    priority := .jstr "medium", created_at := "t2" }

/-- A store holding only `bob`'s `hola` package. -/
def dbOnlyBob : DB := { storage := [("bob_BiMO-4", pkgBobHola)], metrics := [] }

/-- Request trace: `alice` encodes `hola`, then decodes it. -/
def opsAliceEncodeDecode : List (Endpoint × Request) :=
  [(.encodeEp "t1" "t2", reqAliceHola), (.decodeEp "t5", reqAliceDecode)]

/-- The list-endpoint summary of `alice`'s package after
`opsAliceEncodeDecode`. -/
def sumAliceDecoded : PackageSummary :=
  { package_id := "BiMO-4", timestamp := "t1"
    encoding_type := .jstr "BiMO", qubits_count := 4
    status := "decoded", metrics := some mockMetricas }

/-- The list-endpoint summary of `bob`'s package in `dbOnlyBob`. -/
def sumBobEncoded : PackageSummary :=
  { package_id := "BiMO-4", timestamp := "t1"
    encoding_type := .jstr "BiMO", qubits_count := 4
    status := "encoded", metrics := none }

/-- Request trace: `alice` encodes `hola`, `bob` encodes the same
message (sharing the deterministic id `BiMO-4`), then `alice` decodes
the shared id. -/
def opsSharedId : List (Endpoint × Request) :=
  [(.encodeEp "t1" "t2", reqAliceHola),
   (.encodeEp "t3" "t4", reqBobHola),
   (.decodeEp "t5", reqAliceDecode)]

/-- `bob`'s list summary of the shared-id package after `opsSharedId`. -/
def sumBobDecoded : PackageSummary :=
  { package_id := "BiMO-4", timestamp := "t3"
    encoding_type := .jstr "BiMO", qubits_count := 4
    status := "decoded", metrics := some mockMetricas }

/-! ## Helper lemmas -/

theorem lookup_dictSet {α : Type} (k k' : String) (v : α)
    (l : List (String × α)) :
    (dictSet k v l).lookup k' = if k' = k then some v else l.lookup k' := by
  induction l with
  | nil =>
    by_cases h : k' = k
    · simp [dictSet, List.lookup, h]
    · simp [dictSet, List.lookup, h, beq_eq_false_iff_ne.mpr h]
  | cons kv rest ih =>
    obtain ⟨a, b⟩ := kv
    by_cases hak : a = k
    · subst hak
      by_cases h : k' = a
      · simp [dictSet, List.lookup, h]
      · simp [dictSet, List.lookup, h, beq_eq_false_iff_ne.mpr h]
    · by_cases h : k' = a
      · subst h
        simp [dictSet, List.lookup, hak]
      · simp [dictSet, List.lookup, hak, h, beq_eq_false_iff_ne.mpr h, ih]

theorem dictSet_self {α : Type} (k : String) (v : α)
    (l : List (String × α)) (h : l.lookup k = some v) :
    dictSet k v l = l := by
  induction l with
  | nil => simp [List.lookup] at h
  | cons kv rest ih =>
    obtain ⟨a, b⟩ := kv
    by_cases hka : k = a
    · subst hka
      simp [List.lookup] at h
      simp [dictSet, h]
    · simp [List.lookup, beq_eq_false_iff_ne.mpr hka] at h
      have hak : ¬a = k := fun hh => hka hh.symm
      simp [dictSet, hak, ih h]

theorem require_auth_fail_codes (req : Request) (c : String)
    (h : require_auth req = .fail401 c) :
    c = "UNAUTHORIZED" ∨ c = "INVALID_TOKEN" := by
  unfold require_auth at h
  repeat' split at h
  all_goals first
    | exact AuthOutcome.noConfusion h
    | (injection h with h1; exact Or.inl h1.symm)
    | (injection h with h1; exact Or.inr h1.symm)

theorem encode_body_metrics (hsh : String → Int) (n1 n2 : String)
    (u : User) (db : DB) (body : Option JVal) (out : Response × DB)
    (h : api_encode_message hsh n1 n2 u db body = .ok out) :
    out.2.metrics = db.metrics ∧ ∀ pid, respDecodes out.1 pid = false := by
  unfold api_encode_message at h
  repeat' split at h
  all_goals first
    | exact Except.noConfusion h
    | (injection h with h1; subst h1
       exact ⟨rfl, fun pid => rfl⟩)

theorem decode_body_metrics (u : User) (db : DB) (body : Option JVal)
    (now : String) (pid : String) (out : Response × DB)
    (h : api_decode_message u db body now = .ok out) :
    (out.2.metrics.lookup pid).isSome
      = ((db.metrics.lookup pid).isSome || respDecodes out.1 pid) := by
  unfold api_decode_message at h
  repeat' split at h
  all_goals first
    | exact Except.noConfusion h
    | (injection h with h1; subst h1; simp [respDecodes]; done)
    | (injection h with h1; subst h1
       simp only [respDecodes, update_metrics]
       rw [lookup_dictSet]
       split
       · rename_i hp
         simp [hp]
       · rename_i hp
         simp [beq_eq_false_iff_ne.mpr (fun hh => hp hh.symm)])

theorem respDecodes_details (u : User) (db : DB) (pd : String)
    (pid : String) :
    respDecodes (get_package_details u db pd) pid = false := by
  unfold get_package_details
  split
  · rfl
  · split
    · rfl
    · rfl

theorem handle_metrics_step (hsh : String → Int) (ep : Endpoint)
    (req : Request) (db : DB) (pid : String) :
    ((handle hsh ep req db).2.metrics.lookup pid).isSome
      = ((db.metrics.lookup pid).isSome
          || respDecodes (handle hsh ep req db).1 pid) := by
  unfold handle
  cases hra : require_auth req with
  | fail401 c => simp [respDecodes]
  | crash => simp [respDecodes]
  | ok u =>
    cases ep with
    | packagesEp => simp [handle_api_errors, respDecodes]
    | detailEp pd => simp [handle_api_errors, respDecodes_details]
    | encodeEp n1 n2 =>
      cases he : api_encode_message hsh n1 n2 u db req.body with
      | ok out =>
        obtain ⟨h1, h2⟩ := encode_body_metrics hsh n1 n2 u db req.body out he
        simp [handle_api_errors, he, h1, h2]
      | error e => cases e <;> simp [handle_api_errors, he, respDecodes]
    | decodeEp now =>
      cases he : api_decode_message u db req.body now with
      | ok out =>
        have h1 := decode_body_metrics u db req.body now pid out he
        simp only [handle_api_errors, he]
        exact h1
      | error e => cases e <;> simp [handle_api_errors, he, respDecodes]

theorem metrics_lookup_run (hsh : String → Int)
    (ops : List (Endpoint × Request)) (db : DB) (pid : String) :
    ((run hsh db ops).metrics.lookup pid).isSome
      = ((db.metrics.lookup pid).isSome
          || decodeSuccessFor hsh db pid ops) := by
  induction ops generalizing db with
  | nil => simp [run, decodeSuccessFor]
  | cons op rest ih =>
    obtain ⟨ep, req⟩ := op
    simp only [run, decodeSuccessFor]
    rw [ih, handle_metrics_step, Bool.or_assoc]

theorem get_user_packages_mem (db : DB) (uid : String)
    (s : PackageSummary) (h : s ∈ get_user_packages db uid) :
    ∃ kv, kv ∈ db.storage ∧ kv.2.user_id = uid
      ∧ s.package_id = kv.2.id_mensaje
      ∧ s.status = (if (db.metrics.lookup kv.2.id_mensaje).isSome
          then "decoded" else "encoded")
      ∧ s.metrics = db.metrics.lookup kv.2.id_mensaje := by
  unfold get_user_packages at h
  rw [List.mem_filterMap] at h
  obtain ⟨kv, hmem, hf⟩ := h
  split at hf
  · rename_i hu
    injection hf with hf
    subst hf
    exact ⟨kv, hmem, by simpa using hu, rfl, rfl, rfl⟩
  · exact Option.noConfusion hf

theorem handle_encode_norm (hsh : String → Int) (n1 n2 : String)
    (req : Request) (db : DB) (u : User) (fields : List (String × JVal))
    (hauth : require_auth req = .ok u)
    (hbody : req.body = some (.jobj fields)) (hne : fields ≠ []) :
    handle hsh (.encodeEp n1 n2) req db
      = match fields.lookup "message" with
        | some (.jstr s) =>
          if pyStrip s == "" then (.err 400 "VALIDATION_ERROR", db)
          else if s.length > 1000 then (.err 400 "VALIDATION_ERROR", db)
          else
            match (fields.lookup "options").getD (.jobj []) with
            | .jobj opts =>
              (.encoded ("BiMO-" ++ (toString (hsh (pyStrip s))).take 8) n1
                 (pyStrip s).length
                 ((opts.lookup "encoding_type").getD (.jstr "BiMO")),
               save_transmission_history db u.id
                 { id_mensaje :=
                     "BiMO-" ++ (toString (hsh (pyStrip s))).take 8
                   timestamp := n1
                   quantum_data := "encoded_" ++ pyStrip s
                   qubits_count := (pyStrip s).length
                   user_id := u.id
                   encoding_type :=
                     (opts.lookup "encoding_type").getD (.jstr "BiMO")
                   priority :=
                     (opts.lookup "priority").getD (.jstr "medium")
                   created_at := n2 })
            | _ => (.err 500 "INTERNAL_ERROR", db)
        | _ => (.err 400 "VALIDATION_ERROR", db) := by
  unfold handle
  simp only [hauth]
  unfold api_encode_message
  rw [hbody]
  have hje : jfalsy (.jobj fields) = false := by
    simp [jfalsy]
    exact hne
  simp only [hje, Bool.false_eq_true, if_false]
  cases hm : fields.lookup "message" with
  | none => simp [handle_api_errors]
  | some v =>
    cases v with
    | jstr s =>
      by_cases h1 : pyStrip s = ""
      · simp [h1, handle_api_errors]
      · by_cases h2 : 1000 < s.length
        · simp [h1, h2, handle_api_errors]
        · cases ho : (fields.lookup "options").getD (.jobj []) <;>
            simp [h1, h2, ho, handle_api_errors, encode_quantum_message]
    | jnull => simp [handle_api_errors]
    | jbool b => simp [handle_api_errors]
    | jnum n => simp [handle_api_errors]
    | jarr xs => simp [handle_api_errors]
    | jobj fs => simp [handle_api_errors]

theorem handle_decode_norm (hsh : String → Int) (now : String)
    (req : Request) (db : DB) (u : User) (fields : List (String × JVal))
    (hauth : require_auth req = .ok u)
    (hbody : req.body = some (.jobj fields)) (hne : fields ≠ []) :
    handle hsh (.decodeEp now) req db
      = match fields.lookup "package_id" with
        | none => (.err 400 "VALIDATION_ERROR", db)
        | some pidv =>
          if jfalsy pidv then (.err 400 "VALIDATION_ERROR", db)
          else
            match fields.lookup "measurements" with
            | some (.jarr ms) =>
              if ms.isEmpty then (.err 400 "VALIDATION_ERROR", db)
              else
                match get_package_by_id db pidv with
                | none => (.err 404 "PACKAGE_NOT_FOUND", db)
                | some p =>
                  if p.user_id != u.id then (.err 403 "FORBIDDEN", db)
                  else
                    (.decoded p.id_mensaje "QUANTUM MESSAGE DECODED"
                       "SUCCESS" mockMetricas now,
                     update_metrics db p.id_mensaje mockMetricas)
            | _ => (.err 400 "VALIDATION_ERROR", db) := by
  unfold handle
  simp only [hauth]
  unfold api_decode_message
  rw [hbody]
  have hje : jfalsy (.jobj fields) = false := by
    simp [jfalsy]
    exact hne
  simp only [hje, Bool.false_eq_true, if_false]
  cases hp : fields.lookup "package_id" with
  | none => simp [handle_api_errors]
  | some pidv =>
    dsimp only
    by_cases h1 : jfalsy pidv = true
    · simp [h1, handle_api_errors]
    · rw [if_neg h1, if_neg h1]
      cases hm : fields.lookup "measurements" with
      | none => simp [handle_api_errors]
      | some mv =>
        cases mv with
        | jarr ms =>
          dsimp only
          by_cases h2 : ms.isEmpty = true
          · simp [h2, handle_api_errors]
          · rw [if_neg h2, if_neg h2]
            cases hf : get_package_by_id db pidv with
            | none => simp [handle_api_errors]
            | some p =>
              dsimp only
              by_cases h3 : p.user_id = u.id
              · simp [h3, handle_api_errors, decode_quantum_transmission,
                  mockMetricas]
              · simp [h3, handle_api_errors]
        | jnull => simp [handle_api_errors]
        | jbool b => simp [handle_api_errors]
        | jnum n => simp [handle_api_errors]
        | jstr t => simp [handle_api_errors]
        | jobj fs => simp [handle_api_errors]

/-- C3 (amended): on every protected endpoint, when `require_auth`
rejects the request it yields HTTP 401 with machine code `UNAUTHORIZED`
or `INVALID_TOKEN` and the handler body never runs — the response and
the unchanged database are independent of the store contents, so no body
validation and no Store read or write happens.  The missing-token and
failed-resolution cases produce exactly the codes the claim names.
Amendment forced by the counterexample: when the token lookup itself
raises (no header and a JSON non-object body, or a truthy non-string
in-body `auth_token`), the response is HTTP 500, not 401. -/
theorem auth_gate_behavior (hsh : String → Int) (ep : Endpoint)
    (req : Request) (db : DB) :
    (∀ c, require_auth req = .fail401 c →
        handle hsh ep req db = (.err 401 c, db)
          ∧ (c = "UNAUTHORIZED" ∨ c = "INVALID_TOKEN"))
  ∧ (require_auth req = .crash →
        handle hsh ep req db = (.err 500 "INTERNAL_ERROR", db))
  ∧ (extract_token req = .ok none →
        require_auth req = .fail401 "UNAUTHORIZED")
  ∧ (∀ v, extract_token req = .ok (some v) → jfalsy v = true →
        require_auth req = .fail401 "UNAUTHORIZED")
  ∧ (∀ t, extract_token req = .ok (some (.jstr t)) → t ≠ "" →
        get_user_from_token (stripBearer t) = none →
        require_auth req = .fail401 "INVALID_TOKEN") := by
  refine ⟨?_, ?_, ?_, ?_, ?_⟩
  · intro c hc
    refine ⟨?_, require_auth_fail_codes req c hc⟩
    unfold handle
    rw [hc]
  · intro hc
    unfold handle
    rw [hc]
  · intro he
    unfold require_auth
    rw [he]
  · intro v he hf
    unfold require_auth
    rw [he]
    simp [hf]
  · intro t he ht hres
    unfold require_auth
    rw [he]
    have hft : jfalsy (.jstr t) = false := by simp [jfalsy, ht]
    simp [hft, hres]

/-- C3 counterexample: `reqArrayBody` carries no auth token at all (no
`Authorization` header, and its JSON body is an array with no
`auth_token` member), yet the response is HTTP 500, not 401: the token
lookup `request.json.get('auth_token')` raises `AttributeError` on a
non-object body. -/
theorem auth_gate_counterexample :
    reqArrayBody.authHeader = none
      ∧ (handle hashStub (.encodeEp "t1" "t2") reqArrayBody emptyDB).1
          = .err 500 "INTERNAL_ERROR" :=
  ⟨rfl, rfl⟩

/-- Witness for C3: concrete missing-token and bad-token requests. -/
theorem auth_gate_behavior_witness :
    handle hashStub (.encodeEp "t1" "t2") reqNoToken emptyDB
        = (.err 401 "UNAUTHORIZED", emptyDB)
      ∧ handle hashStub (.decodeEp "t") reqBadToken emptyDB
        = (.err 401 "INVALID_TOKEN", emptyDB) :=
  ⟨((auth_gate_behavior hashStub (.encodeEp "t1" "t2") reqNoToken
      emptyDB).1 "UNAUTHORIZED" rfl).1,
   ((auth_gate_behavior hashStub (.decodeEp "t") reqBadToken
      emptyDB).1 "INVALID_TOKEN" rfl).1⟩

/-- C4: every summary in the list endpoint's response corresponds to a
stored package whose owning `user_id` is the caller's; a package owned
by a different user never appears. -/
theorem list_only_caller_packages (db : DB) (uid : String)
    (s : PackageSummary) (h : s ∈ get_user_packages db uid) :
    ∃ kv, kv ∈ db.storage ∧ kv.2.user_id = uid
      ∧ s.package_id = kv.2.id_mensaje := by
  obtain ⟨kv, h1, h2, h3, _⟩ := get_user_packages_mem db uid s h
  exact ⟨kv, h1, h2, h3⟩

/-- Witness for C4. -/
theorem list_only_caller_packages_witness :
    ∃ kv, kv ∈ dbOnlyBob.storage ∧ kv.2.user_id = "bob"
      ∧ sumBobEncoded.package_id = kv.2.id_mensaje :=
  list_only_caller_packages dbOnlyBob "bob" sumBobEncoded
    (List.mem_singleton_self sumBobEncoded)

/-- C5: a decode request that passes validation, whose package is found
but owned by a different user, yields HTTP 403 `FORBIDDEN` and leaves
the store unchanged, for every value of the measurements array. -/
theorem decode_foreign_package_forbidden (hsh : String → Int)
    (now : String) (req : Request) (db : DB) (u : User)
    (fields : List (String × JVal)) (pidv : JVal) (ms : List JVal)
    (p : Paquete)
    (hauth : require_auth req = .ok u)
    (hbody : req.body = some (.jobj fields))
    (hpid : fields.lookup "package_id" = some pidv)
    (hpt : jfalsy pidv = false)
    (hms : fields.lookup "measurements" = some (.jarr ms))
    (hmne : ms ≠ [])
    (hfound : get_package_by_id db pidv = some p)
    (howner : p.user_id ≠ u.id) :
    handle hsh (.decodeEp now) req db = (.err 403 "FORBIDDEN", db) := by
  have hne : fields ≠ [] := by
    intro hf
    rw [hf] at hpid
    simp [List.lookup] at hpid
  have hmse : ms.isEmpty = false := by
    cases ms with
    | nil => exact absurd rfl hmne
    | cons a l => rfl
  rw [handle_decode_norm hsh now req db u fields hauth hbody hne, hpid]
  dsimp only
  simp [hpt, hms, hmse, hfound, bne_iff_ne, howner]

/-- Witness for C5: `alice` decoding `bob`'s package. -/
theorem decode_foreign_package_forbidden_witness :
    handle hashStub (.decodeEp "t5") reqAliceDecode dbOnlyBob
      = (.err 403 "FORBIDDEN", dbOnlyBob) :=
  decode_foreign_package_forbidden hashStub "t5" reqAliceDecode dbOnlyBob
    { id := "alice", username := "user_lice", tier := "premium" }
    [("package_id", .jstr "BiMO-4"), ("measurements", .jarr [.jnum 1])]
    (.jstr "BiMO-4") [.jnum 1] pkgBobHola rfl rfl rfl rfl rfl
    (List.cons_ne_nil _ _) rfl (by decide)

/-- C6: a decode request that passes validation whose package id is not
in the store yields HTTP 404 `PACKAGE_NOT_FOUND` with the store
unchanged, for every authenticated caller; the lookup is performed (and
the 404 decided) before any ownership information is consulted. -/
theorem decode_missing_package_not_found (hsh : String → Int)
    (now : String) (req : Request) (db : DB) (u : User)
    (fields : List (String × JVal)) (pidv : JVal) (ms : List JVal)
    (hauth : require_auth req = .ok u)
    (hbody : req.body = some (.jobj fields))
    (hpid : fields.lookup "package_id" = some pidv)
    (hpt : jfalsy pidv = false)
    (hms : fields.lookup "measurements" = some (.jarr ms))
    (hmne : ms ≠ [])
    (hfound : get_package_by_id db pidv = none) :
    handle hsh (.decodeEp now) req db
      = (.err 404 "PACKAGE_NOT_FOUND", db) := by
  have hne : fields ≠ [] := by
    intro hf
    rw [hf] at hpid
    simp [List.lookup] at hpid
  have hmse : ms.isEmpty = false := by
    cases ms with
    | nil => exact absurd rfl hmne
    | cons a l => rfl
  rw [handle_decode_norm hsh now req db u fields hauth hbody hne, hpid]
  dsimp only
  simp [hpt, hms, hmse, hfound]

/-- Witness for C6: decoding against the empty store. -/
theorem decode_missing_package_not_found_witness :
    handle hashStub (.decodeEp "t5") reqAliceDecode emptyDB
      = (.err 404 "PACKAGE_NOT_FOUND", emptyDB) :=
  decode_missing_package_not_found hashStub "t5" reqAliceDecode emptyDB
    { id := "alice", username := "user_lice", tier := "premium" }
    [("package_id", .jstr "BiMO-4"), ("measurements", .jarr [.jnum 1])]
    (.jstr "BiMO-4") [.jnum 1] rfl rfl rfl rfl rfl
    (List.cons_ne_nil _ _) rfl

/-- C7: an authenticated encode request whose `message` is missing, not
a string, empty or whitespace-only after trimming, or longer than 1000
characters yields HTTP 400 `VALIDATION_ERROR` and leaves the store
unchanged (no save occurs). -/
theorem encode_invalid_message_validation_error (hsh : String → Int)
    (n1 n2 : String) (req : Request) (db : DB) (u : User)
    (fields : List (String × JVal))
    (hauth : require_auth req = .ok u)
    (hbody : req.body = some (.jobj fields))
    (hbad : fields.lookup "message" = none
      ∨ (∃ v, fields.lookup "message" = some v ∧ ∀ t, v ≠ .jstr t)
      ∨ (∃ s, fields.lookup "message" = some (.jstr s) ∧ pyStrip s = "")
      ∨ (∃ s, fields.lookup "message" = some (.jstr s)
          ∧ s.length > 1000)) :
    handle hsh (.encodeEp n1 n2) req db
      = (.err 400 "VALIDATION_ERROR", db) := by
  by_cases hne : fields = []
  · subst hne
    unfold handle
    simp only [hauth]
    unfold api_encode_message
    rw [hbody]
    simp [jfalsy, handle_api_errors]
  · rw [handle_encode_norm hsh n1 n2 req db u fields hauth hbody hne]
    rcases hbad with h | ⟨v, hv, hnv⟩ | ⟨s, hs, hse⟩ | ⟨s, hs, hsl⟩
    · rw [h]
    · rw [hv]
      cases v with
      | jstr t => exact absurd rfl (hnv t)
      | jnull => rfl
      | jbool b => rfl
      | jnum n => rfl
      | jarr xs => rfl
      | jobj fs => rfl
    · rw [hs]
      simp [hse]
    · rw [hs]
      have hse : pyStrip s = "" ∨ pyStrip s ≠ "" := em _
      dsimp only
      rcases hse with hse | hse
      · simp [hse]
      · simp [hse, hsl]

/-- Witness for C7: a whitespace-only message. -/
theorem encode_invalid_message_validation_error_witness :
    handle hashStub (.encodeEp "t1" "t2") reqAliceWhitespaceMsg emptyDB
      = (.err 400 "VALIDATION_ERROR", emptyDB) :=
  encode_invalid_message_validation_error hashStub "t1" "t2"
    reqAliceWhitespaceMsg emptyDB
    { id := "alice", username := "user_lice", tier := "premium" }
    [("message", .jstr "   ")] rfl rfl
    (Or.inr (Or.inr (Or.inl ⟨"   ", rfl, rfl⟩)))

/-- C10: an authenticated encode request with a valid message whose
`options` member is present but is not a JSON object yields HTTP 500
`INTERNAL_ERROR` (the handler calls `.get` on it, raising
`AttributeError`, which the error mapper does not treat as a
validation failure), not 400. -/
theorem encode_bad_options_internal_error (hsh : String → Int)
    (n1 n2 : String) (req : Request) (db : DB) (u : User)
    (fields : List (String × JVal)) (s : String) (v : JVal)
    (hauth : require_auth req = .ok u)
    (hbody : req.body = some (.jobj fields))
    (hmsg : fields.lookup "message" = some (.jstr s))
    (hstrip : pyStrip s ≠ "")
    (hlen : ¬s.length > 1000)
    (hopt : fields.lookup "options" = some v)
    (hnotobj : ∀ os, v ≠ .jobj os) :
    handle hsh (.encodeEp n1 n2) req db
      = (.err 500 "INTERNAL_ERROR", db) := by
  have hne : fields ≠ [] := by
    intro hf
    rw [hf] at hmsg
    simp [List.lookup] at hmsg
  rw [handle_encode_norm hsh n1 n2 req db u fields hauth hbody hne, hmsg]
  dsimp only
  rw [hopt]
  cases v with
  | jobj os => exact absurd rfl (hnotobj os)
  | jnull => simp [hstrip, hlen]
  | jbool b => simp [hstrip, hlen]
  | jnum n => simp [hstrip, hlen]
  | jstr t => simp [hstrip, hlen]
  | jarr xs => simp [hstrip, hlen]

/-- Witness for C10: `options` given as the string `"fast"`. -/
theorem encode_bad_options_internal_error_witness :
    handle hashStub (.encodeEp "t1" "t2") reqAliceBadOptions emptyDB
      = (.err 500 "INTERNAL_ERROR", emptyDB) :=
  encode_bad_options_internal_error hashStub "t1" "t2"
    reqAliceBadOptions emptyDB
    { id := "alice", username := "user_lice", tier := "premium" }
    [("message", .jstr "hola"), ("options", .jstr "fast")]
    "hola" (.jstr "fast") rfl rfl rfl (by decide) (by decide) rfl
    (fun os h => JVal.noConfusion h)

theorem dictSet_idem {α : Type} (k : String) (v : α)
    (l : List (String × α)) : dictSet k v (dictSet k v l) = dictSet k v l :=
  dictSet_self k v (dictSet k v l) (by rw [lookup_dictSet]; simp)

/-- C1 (amended): encode is deterministic in the message — the package
id is a fixed function of the trimmed message, so repeating an identical
successful encode request returns the same response (in particular the
same package id, not a fresh one) and leaves the store exactly as after
the first call: the save overwrites the caller's existing package under
the same key instead of creating a distinct one. -/
theorem encode_repeat_overwrites (hsh : String → Int) (n1 n2 : String)
    (req : Request) (db : DB) (u : User) (fields : List (String × JVal))
    (s : String)
    (hauth : require_auth req = .ok u)
    (hbody : req.body = some (.jobj fields))
    (hmsg : fields.lookup "message" = some (.jstr s))
    (hstrip : pyStrip s ≠ "")
    (hlen : ¬s.length > 1000)
    (hopts : ∀ v, fields.lookup "options" = some v → ∃ os, v = .jobj os) :
    (handle hsh (.encodeEp n1 n2) req
        (handle hsh (.encodeEp n1 n2) req db).2).1
      = (handle hsh (.encodeEp n1 n2) req db).1
    ∧ (handle hsh (.encodeEp n1 n2) req
        (handle hsh (.encodeEp n1 n2) req db).2).2
      = (handle hsh (.encodeEp n1 n2) req db).2
    ∧ ∃ q et,
        (handle hsh (.encodeEp n1 n2) req db).1
          = .encoded ("BiMO-" ++ (toString (hsh (pyStrip s))).take 8)
              n1 q et := by
  have hne : fields ≠ [] := by
    intro hf
    rw [hf] at hmsg
    simp [List.lookup] at hmsg
  have hc1 : ¬((pyStrip s == "") = true) := by simp [hstrip]
  rcases ho : fields.lookup "options" with _ | v
  · have key : ∀ d : DB, handle hsh (.encodeEp n1 n2) req d
        = (.encoded ("BiMO-" ++ (toString (hsh (pyStrip s))).take 8) n1
            (pyStrip s).length (.jstr "BiMO"),
           save_transmission_history d u.id
             { id_mensaje := "BiMO-" ++ (toString (hsh (pyStrip s))).take 8
               timestamp := n1
               quantum_data := "encoded_" ++ pyStrip s
               qubits_count := (pyStrip s).length
               user_id := u.id
               encoding_type := .jstr "BiMO"
               priority := .jstr "medium"
               created_at := n2 }) := by
      intro d
      rw [handle_encode_norm hsh n1 n2 req d u fields hauth hbody hne,
        hmsg]
      dsimp only
      rw [ho]
      dsimp only [Option.getD]
      rw [if_neg hc1, if_neg hlen]
      rfl
    refine ⟨by simp only [key], ?_, ?_⟩
    · simp only [key, save_transmission_history]
      simp [dictSet_idem]
    · rw [key db]
      exact ⟨(pyStrip s).length, .jstr "BiMO", rfl⟩
  · obtain ⟨os, rfl⟩ := hopts v ho
    have key : ∀ d : DB, handle hsh (.encodeEp n1 n2) req d
        = (.encoded ("BiMO-" ++ (toString (hsh (pyStrip s))).take 8) n1
            (pyStrip s).length
            ((os.lookup "encoding_type").getD (.jstr "BiMO")),
           save_transmission_history d u.id
             { id_mensaje := "BiMO-" ++ (toString (hsh (pyStrip s))).take 8
               timestamp := n1
               quantum_data := "encoded_" ++ pyStrip s
               qubits_count := (pyStrip s).length
               user_id := u.id
               encoding_type :=
                 (os.lookup "encoding_type").getD (.jstr "BiMO")
               priority := (os.lookup "priority").getD (.jstr "medium")
               created_at := n2 }) := by
      intro d
      rw [handle_encode_norm hsh n1 n2 req d u fields hauth hbody hne,
        hmsg]
      dsimp only
      rw [ho]
      dsimp only [Option.getD]
      rw [if_neg hc1, if_neg hlen]
    refine ⟨by simp only [key], ?_, ?_⟩
    · simp only [key, save_transmission_history]
      simp [dictSet_idem]
    · rw [key db]
      exact ⟨(pyStrip s).length,
        (os.lookup "encoding_type").getD (.jstr "BiMO"), rfl⟩

/-- C1 counterexample: two identical `hola` encodes by `alice` produce
identical responses (the same package id the second time, not a distinct
one) and one single stored package (the second save overwrites the
first), refuting both the id-freshness and the distinct-package parts of
the claim. -/
theorem encode_repeat_counterexample :
    (handle hashStub (.encodeEp "t1" "t2") reqAliceHola
        (handle hashStub (.encodeEp "t1" "t2") reqAliceHola emptyDB).2).1
      = (handle hashStub (.encodeEp "t1" "t2") reqAliceHola emptyDB).1
    ∧ ((handle hashStub (.encodeEp "t1" "t2") reqAliceHola
          (handle hashStub (.encodeEp "t1" "t2") reqAliceHola
            emptyDB).2).2).storage.length = 1 :=
  ⟨rfl, rfl⟩

/-- Witness for C1 (amended). -/
theorem encode_repeat_overwrites_witness :
    ∃ q et, (handle hashStub (.encodeEp "t1" "t2") reqAliceHola
        emptyDB).1
      = .encoded ("BiMO-" ++ (toString (hashStub (pyStrip "hola"))).take 8)
          "t1" q et :=
  (encode_repeat_overwrites hashStub "t1" "t2" reqAliceHola emptyDB
    { id := "alice", username := "user_lice", tier := "premium" }
    [("message", .jstr "hola")] "hola" rfl rfl rfl (by decide) (by decide)
    (fun v hv => Option.noConfusion hv)).2.2

/-- C2 (amended): for an authenticated encode request whose body is an
object with a `message` string that is non-empty after trimming (and
whose `options`, when present, is an object), the length
ValidationError is raised exactly when the RAW message length exceeds
1000 characters — the source checks `len(message) > 1000` before
trimming — and every message whose raw length is at most 1000 is
encoded. -/
theorem encode_length_check_raw (hsh : String → Int) (n1 n2 : String)
    (req : Request) (db : DB) (u : User) (fields : List (String × JVal))
    (s : String)
    (hauth : require_auth req = .ok u)
    (hbody : req.body = some (.jobj fields))
    (hmsg : fields.lookup "message" = some (.jstr s))
    (hstrip : pyStrip s ≠ "")
    (hopts : ∀ v, fields.lookup "options" = some v → ∃ os, v = .jobj os) :
    ((handle hsh (.encodeEp n1 n2) req db).1 = .err 400 "VALIDATION_ERROR"
        ↔ s.length > 1000)
    ∧ (¬s.length > 1000 → ∃ q et,
        (handle hsh (.encodeEp n1 n2) req db).1
          = .encoded ("BiMO-" ++ (toString (hsh (pyStrip s))).take 8)
              n1 q et) := by
  have hne : fields ≠ [] := by
    intro hf
    rw [hf] at hmsg
    simp [List.lookup] at hmsg
  have hc1 : ¬((pyStrip s == "") = true) := by simp [hstrip]
  have hnf := handle_encode_norm hsh n1 n2 req db u fields hauth hbody hne
  rw [hmsg] at hnf
  dsimp only at hnf
  rw [if_neg hc1] at hnf
  by_cases hl : s.length > 1000
  · rw [if_pos hl] at hnf
    rw [hnf]
    constructor
    · simp [hl]
    · intro hc
      exact absurd hl hc
  · rw [if_neg hl] at hnf
    rcases ho : fields.lookup "options" with _ | v
    · rw [ho] at hnf
      dsimp only [Option.getD] at hnf
      rw [hnf]
      constructor
      · simp [hl]
      · intro _
        exact ⟨(pyStrip s).length, .jstr "BiMO", rfl⟩
    · obtain ⟨os, rfl⟩ := hopts v ho
      rw [ho] at hnf
      dsimp only [Option.getD] at hnf
      rw [hnf]
      constructor
      · simp [hl]
      · intro _
        exact ⟨(pyStrip s).length,
          (os.lookup "encoding_type").getD (.jstr "BiMO"), rfl⟩

set_option maxRecDepth 8000 in
/-- C2 counterexample: `longMsg` has raw length 1001 but trimmed length
1000; the claim says it passes length validation and is encoded, yet the
handler answers 400 `VALIDATION_ERROR` because the source measures the
untrimmed message. -/
theorem encode_length_trimmed_counterexample :
    handle hashStub (.encodeEp "t1" "t2") reqAliceLong emptyDB
        = (.err 400 "VALIDATION_ERROR", emptyDB)
      ∧ (pyStrip longMsg).length ≤ 1000 := by
  exact ⟨rfl, by decide⟩

set_option maxRecDepth 8000 in
/-- Witness for C2 (amended), at the same 1001-character message. -/
theorem encode_length_check_raw_witness :
    ((handle hashStub (.encodeEp "t1" "t2") reqAliceLong emptyDB).1
        = .err 400 "VALIDATION_ERROR") ↔ longMsg.length > 1000 :=
  (encode_length_check_raw hashStub "t1" "t2" reqAliceLong emptyDB
    { id := "alice", username := "user_lice", tier := "premium" }
    [("message", .jstr longMsg)] longMsg rfl rfl rfl (by decide)
    (fun v hv => Option.noConfusion hv)).1

/-- C8: starting from the empty store, after any sequence of requests,
the list endpoint reports a package with status `"decoded"` iff some
prior successful decode call referenced its id (equivalently iff a
metrics record exists for that id — `metrics_lookup_run` equates the
two), reports `"encoded"` otherwise, and attaches the `metrics` member
exactly in the decoded case. -/
theorem list_status_decoded_iff_decode (hsh : String → Int)
    (ops : List (Endpoint × Request)) (uid : String) (s : PackageSummary)
    (h : s ∈ get_user_packages (run hsh emptyDB ops) uid) :
    (s.status = "decoded"
        ↔ decodeSuccessFor hsh emptyDB s.package_id ops = true)
    ∧ (s.status = "decoded" ∨ s.status = "encoded")
    ∧ (s.metrics.isSome
        ↔ decodeSuccessFor hsh emptyDB s.package_id ops = true) := by
  obtain ⟨kv, hmem, hu, hpid, hst, hmet⟩ :=
    get_user_packages_mem (run hsh emptyDB ops) uid s h
  have hrun := metrics_lookup_run hsh ops emptyDB kv.2.id_mensaje
  have hemp : (List.lookup kv.2.id_mensaje emptyDB.metrics).isSome
      = false := rfl
  rw [hemp, Bool.false_or] at hrun
  rw [hpid, hst, hmet, hrun]
  cases hdx : decodeSuccessFor hsh emptyDB kv.2.id_mensaje ops with
  | true => simp
  | false => simp

/-- Witness for C8: after `alice` encodes and decodes `hola`, her
package is listed as decoded with metrics attached. -/
theorem list_status_decoded_iff_decode_witness :
    (sumAliceDecoded.status = "decoded"
        ↔ decodeSuccessFor hashStub emptyDB sumAliceDecoded.package_id
            opsAliceEncodeDecode = true)
    ∧ (sumAliceDecoded.status = "decoded"
        ∨ sumAliceDecoded.status = "encoded")
    ∧ (sumAliceDecoded.metrics.isSome
        ↔ decodeSuccessFor hashStub emptyDB sumAliceDecoded.package_id
            opsAliceEncodeDecode = true) :=
  list_status_decoded_iff_decode hashStub opsAliceEncodeDecode "alice"
    sumAliceDecoded (List.mem_singleton_self sumAliceDecoded)

/-- C9 (amended): metrics are keyed solely by package id — the metrics a
listing attaches to a package are a function of its id alone, and when a
metrics record exists for an id, EVERY user listing a package with that
id sees it as decoded with those same metrics; package ids are a
deterministic function of the message, so two users encoding the same
message share one id.  Amendment forced by the counterexample: the
claim's detail-endpoint half fails — the detail lookup resolves the id
to the first stored package bearing it, so a caller who does not own
that first package receives 403 FORBIDDEN from the detail endpoint, not
the decoded report. -/
theorem shared_id_metrics_amended (hsh : String → Int) :
    (∀ now now' msg, (encode_quantum_message hsh now msg).id_mensaje
        = (encode_quantum_message hsh now' msg).id_mensaje)
    ∧ (∀ db uid s, s ∈ get_user_packages db uid →
        s.metrics = db.metrics.lookup s.package_id)
    ∧ (∀ db uid s m, s ∈ get_user_packages db uid →
        db.metrics.lookup s.package_id = some m →
        s.status = "decoded" ∧ s.metrics = some m)
    ∧ (∀ u db pid p, get_package_by_id db (.jstr pid) = some p →
        p.user_id ≠ u.id →
        get_package_details u db pid = .err 403 "FORBIDDEN") := by
  refine ⟨fun now now' msg => rfl, ?_, ?_, ?_⟩
  · intro db uid s hs
    obtain ⟨kv, _, _, hpid, _, hmet⟩ := get_user_packages_mem db uid s hs
    rw [hmet, hpid]
  · intro db uid s m hs hm
    obtain ⟨kv, _, _, hpid, hst, hmet⟩ :=
      get_user_packages_mem db uid s hs
    rw [hpid] at hm
    constructor
    · rw [hst, hm]
      simp
    · rw [hmet, hm]
  · intro u db pid p hf hown
    unfold get_package_details
    rw [hf]
    simp [bne_iff_ne, hown]

/-- C9 counterexample: after `alice` and `bob` both encode `hola` and
`alice` successfully decodes the shared id, `bob`'s LIST response shows
his package decoded with the shared metrics — but his DETAIL request for
that very id yields 403 FORBIDDEN (the lookup returns `alice`'s
first-stored package), refuting the claim's detail-response half. -/
theorem shared_id_detail_counterexample :
    decodeSuccessFor hashStub emptyDB "BiMO-4" opsSharedId = true
    ∧ get_user_packages (run hashStub emptyDB opsSharedId) "bob"
        = [sumBobDecoded]
    ∧ (handle hashStub (.detailEp "BiMO-4") reqBobBare
        (run hashStub emptyDB opsSharedId)).1 = .err 403 "FORBIDDEN" :=
  ⟨rfl, rfl, rfl⟩

/-- Witness for C9 (amended), on the shared-id scenario. -/
theorem shared_id_metrics_amended_witness :
    (encode_quantum_message hashStub "t1" "hola").id_mensaje
      = (encode_quantum_message hashStub "t3" "hola").id_mensaje
    ∧ (sumBobDecoded.status = "decoded"
        ∧ sumBobDecoded.metrics = some mockMetricas)
    ∧ get_package_details
        { id := "bob", username := "user__bob", tier := "premium" }
        (run hashStub emptyDB opsSharedId) "BiMO-4"
        = .err 403 "FORBIDDEN" :=
  ⟨(shared_id_metrics_amended hashStub).1 "t1" "t3" "hola",
   (shared_id_metrics_amended hashStub).2.2.1
     (run hashStub emptyDB opsSharedId) "bob" sumBobDecoded mockMetricas
     (List.mem_singleton_self sumBobDecoded) rfl,
   (shared_id_metrics_amended hashStub).2.2.2
     { id := "bob", username := "user__bob", tier := "premium" }
     (run hashStub emptyDB opsSharedId) "BiMO-4"
     { id_mensaje := "BiMO-4", timestamp := "t1"
       quantum_data := "encoded_hola", qubits_count := 4
       user_id := "alice", encoding_type := .jstr "BiMO"
       priority := .jstr "medium", created_at := "t2" }
     rfl (by decide)⟩
